import Mathlib

/-!
Verification of the opportunity extraction/dedup pipeline of the
doe-monitor repository (src/app.py, src/improved_scraper.py).

The Python source is shallowly embedded: Python strings are `String`,
Python floats are modelled as rationals (`Rat`; every numeric value the
claims touch is exactly representable), Python's `None`/falsy results are
`Option`, and a function that can raise is `Except Unit`.  Character
classes follow the ASCII fragment of Python's semantics (`str.lower`,
`str.strip`, `\s`), which covers every string the program and the claims
manipulate.  Each definition is translated from the named source function.
-/

/-- Python's `needle in hay` substring test on strings (list-of-chars form).
`listContains needle hay` is true iff `needle` occurs contiguously in `hay`. -/
def listContains : List Char → List Char → Bool
  | needle, hay =>
    needle.isPrefixOf hay ||
      match hay with
      | [] => false
      | _ :: t => listContains needle t

/-- Python's `s.startswith(p)` (exact, case-sensitive). -/
def pyStartswith (s p : String) : Bool := p.data.isPrefixOf s.data

/-- The ASCII part of Python's `str.strip` whitespace class
(space, tab, newline, carriage return, vertical tab, form feed). -/
def pyWhitespace (c : Char) : Bool :=
  c == ' ' || c == '\t' || c == '\n' || c == '\r' || c == Char.ofNat 11 || c == Char.ofNat 12

/-- Python's `s.strip()` (ASCII whitespace). -/
def pyStrip (s : String) : String :=
  String.mk (((s.data.dropWhile pyWhitespace).reverse.dropWhile pyWhitespace).reverse)

/-- Python's `s[:n]` on strings. -/
def pyTruncate (n : Nat) (s : String) : String := String.mk (s.data.take n)

/-- Python's `s.lower()` (ASCII). -/
def pyLower (s : String) : String := String.mk (s.data.map Char.toLower)

/-! ## URL Sanitizer — `clean_extracted_url` (src/app.py lines 666-689) -/

/-- Reversed-suffix matcher for the regex `\[\d+\]$`: given the reversed
character list, consume `]`, one or more digits, `[`, and return the rest
(still reversed). -/
def dropFootnoteRev : List Char → Option (List Char)
  | ']' :: rest =>
    let ds := rest.takeWhile Char.isDigit
    let rest' := rest.dropWhile Char.isDigit
    if ds.isEmpty then none
    else
      match rest' with
      | '[' :: r => some r
      | _ => none
  | _ => none

/-- Embeds `re.sub(r'\[\d+\]\.?$', '', url)`: remove one trailing `[digits]`,
optionally followed by a period, anchored at the end of the string. -/
def removeFootnote (s : String) : String :=
  let r := s.data.reverse
  match r with
  | '.' :: r' =>
    (match dropFootnoteRev r' with
     | some rest => String.mk rest.reverse
     | none => s)
  | _ =>
    (match dropFootnoteRev r with
     | some rest => String.mk rest.reverse
     | none => s)

/-- Embeds `re.sub(r'[\)\]\}\.,:;!?]+$', '', url)`: strip the trailing run of
closing punctuation. -/
def removeTrailingPunct (s : String) : String :=
  String.mk ((s.data.reverse.dropWhile
    (fun c => [')', ']', '}', '.', ',', ':', ';', '!', '?'].contains c)).reverse)

/-- Character class `[^\s<>"]` of the domain-validation regex. -/
def goodUrlChar (c : Char) : Bool := !(pyWhitespace c || c == '<' || c == '>' || c == '"')

/-- Matches `[a-zA-Z]{2,}`: the next two characters exist and are ASCII letters. -/
def twoAlpha : List Char → Bool
  | c1 :: c2 :: _ => c1.isAlpha && c2.isAlpha
  | _ => false

/-- Backtracking core of `re.match(r'https?://[^\s<>"]+\.[a-zA-Z]{2,}', url)`
after the scheme: true iff some nonempty prefix of `[^\s<>"]` characters is
followed by `.` and at least two ASCII letters.  `consumed` records whether
at least one character of the `+` run has been consumed. -/
def findDot : List Char → Bool → Bool
  | [], _ => false
  | c :: rest, consumed =>
    (consumed && c == '.' && twoAlpha rest) || (goodUrlChar c && findDot rest true)

/-- The `https?://` prefix of the domain-validation regex. -/
def stripHttpScheme : List Char → Option (List Char)
  | 'h' :: 't' :: 't' :: 'p' :: rest =>
    (match rest with
     | 's' :: ':' :: '/' :: '/' :: r => some r
     | ':' :: '/' :: '/' :: r => some r
     | _ => none)
  | _ => none

/-- Embeds `re.match(r'https?://[^\s<>"]+\.[a-zA-Z]{2,}', url)` as a Boolean. -/
def domainMatch (s : String) : Bool :=
  match stripHttpScheme s.data with
  | some rest => findDot rest false
  | none => false

/-- Embeds `clean_extracted_url` (src/app.py 666-689): strip; remove a trailing
`[n]` footnote marker; strip trailing closing punctuation; re-strip; then
return the URL only if it is nonempty, starts with `http`, is longer than
10 characters and matches the domain-with-TLD regex — otherwise `''`. -/
def clean_extracted_url (url : String) : String :=
  if url == "" then ""
  else
    let u := pyStrip url
    let u := removeFootnote u
    let u := removeTrailingPunct u
    let u := pyStrip u
    if !(u == "") && pyStartswith u "http" && decide (10 < u.length) && domainMatch u
    then u else ""

/-! ## Amount Normalizer — `extract_dollar_amount` (src/app.py 754-771) -/

/-- Character class `[\d.]` of the amount regex. -/
def isDigDot (c : Char) : Bool := c.isDigit || c == '.'

/-- After the optional `$`, consume the greedy `([\d.]+)` group, skip `\s*`,
and capture an optional `([KMB])?` (case-insensitive, stored uppercased,
mirroring `multiplier.upper()`). -/
def grabAmount (cs : List Char) : List Char × Option Char :=
  let num := cs.takeWhile isDigDot
  let rest := (cs.dropWhile isDigDot).dropWhile pyWhitespace
  match rest with
  | c :: _ => if ['K', 'M', 'B', 'k', 'm', 'b'].contains c then (num, some c.toUpper) else (num, none)
  | [] => (num, none)

/-- One anchored attempt of `\$?([\d.]+)\s*([KMB])?` at the current position
(with the regex engine's backtracking over the optional `$`). -/
def matchAmountAt : List Char → Option (List Char × Option Char)
  | '$' :: c :: rest => if isDigDot c then some (grabAmount (c :: rest)) else none
  | c :: rest => if isDigDot c then some (grabAmount (c :: rest)) else none
  | [] => none

/-- Embeds `re.search`: try the pattern at each position, leftmost match wins. -/
def searchAmount : List Char → Option (List Char × Option Char)
  | [] => none
  | c :: rest =>
    match matchAmountAt (c :: rest) with
    | some r => some r
    | none => searchAmount rest

/-- Decimal value of a digit list. -/
def natOfDigits (cs : List Char) : Nat := cs.foldl (fun n c => 10 * n + (c.toNat - 48)) 0

/-- Python's `float(s)` on a nonempty string of digits and periods: defined
iff the string has at least one digit and at most one period, else it
raises `ValueError` (`none` here). -/
def pyFloatOfDigits (cs : List Char) : Option Rat :=
  if cs.any Char.isDigit && decide ((cs.filter (fun c => c == '.')).length ≤ 1) then
    let ip := cs.takeWhile Char.isDigit
    match cs.dropWhile Char.isDigit with
    | [] => some (natOfDigits ip)
    | '.' :: fp => some ((natOfDigits ip : Rat) + (natOfDigits fp : Rat) / ((10 : Rat) ^ fp.length))
    | _ => none
  else none

/-- The `multipliers` dict: `K`→1e3, `M`→1e6, `B`→1e9, no suffix → ×1. -/
def multiplierValue : Option Char → Rat
  | some 'K' => 1000
  | some 'M' => 1000000
  | some 'B' => 1000000000
  | _ => 1

/-- Embeds `extract_dollar_amount` (src/app.py 754-771): strip commas, search for
`\$?([\d.]+)\s*([KMB])?` (ignorecase), convert the captured number with
`float` and apply the magnitude suffix.  `Except.error ()` models an
uncaught `ValueError` escaping the function (`float` applied to a
digitless capture such as `"."`). -/
def extract_dollar_amount (text : String) : Except Unit (Option Rat) :=
  if text == "" then .ok none
  else
    let t := text.data.filter (fun c => !(c == ','))
    match searchAmount t with
    | none => .ok none
    | some (num, mult) =>
      match pyFloatOfDigits num with
      | none => .error ()
      | some q => .ok (some (q * multiplierValue mult))

/-! ## Quality Filter — `is_high_quality_opportunity` (src/app.py 773-823) -/

/-- The `red_flag_terms` list (src/app.py 778-782). -/
def red_flag_terms : List String :=
  ["budget", "summary", "legislative", "archive", "report", "overview",
   "analysis", "appropriation", "bill", "legislation", "hearing",
   "committee", "minutes", "agenda", "presentation", "slides"]

/-- The `url_red_flags` list (src/app.py 791-794). -/
def url_red_flags : List String :=
  [".pdf", "/archive", "/budget", "/legislative", "/summary",
   "/reports", "/presentations", "/minutes", "/hearing"]

/-- The `actionable_terms` list (src/app.py 802-805). -/
def actionable_terms : List String :=
  ["application", "apply", "grant", "rfp", "request for proposal",
   "funding opportunity", "competitive", "solicitation", "award"]

/-- Embeds `is_high_quality_opportunity` (src/app.py 773-823).  The loops with an
early `return False` are `List.any`; amount/deadline enter only the soft
"vague" warning (computed, never part of the returned decision), mirrored
by the unused bindings. -/
def is_high_quality_opportunity (title url amount deadline : String) : Bool :=
  let title_lower := pyLower title
  if red_flag_terms.any (fun term => listContains term.data title_lower.data) then false
  else
    let url_lower := pyLower url
    if url_red_flags.any (fun flag => listContains flag.data url_lower.data) then false
    else
      let combined_text := title_lower ++ " " ++ url_lower
      let has_actionable := actionable_terms.any (fun term => listContains term.data combined_text.data)
      if !has_actionable then false
      else
        let _has_amount := !(amount == "") && !(["tbd", "to be determined", "varies"].contains (pyLower amount))
        let _has_deadline := !(deadline == "") && !(["tbd", "to be determined", "varies"].contains (pyLower deadline))
        true

/-- The spec's acceptance condition (§4.3/§8): accept iff the combined
title+url text has an actionable term, the title has no denylist term and
the URL has no denylist fragment. -/
def quality_filter_spec (title url : String) : Bool :=
  let t := pyLower title
  let u := pyLower url
  actionable_terms.any (fun term => listContains term.data (t ++ " " ++ u).data)
    && !(red_flag_terms.any (fun term => listContains term.data t.data))
    && !(url_red_flags.any (fun flag => listContains flag.data u.data))

/-! ## Structural Extractor selector loop (src/app.py 869-884,
src/improved_scraper.py 173-188) and href dedup (890-897 / 179-186) -/

/-- A scraped anchor: visible text and `href` attribute. -/
structure Link where
  text : String
  href : String
deriving DecidableEq

/-- Selector loop of `scrape_opportunities` (src/app.py 875-884): evaluate
selectors in order, `extend` with the first non-empty match set and
`break`.  `select` abstracts `soup.select` on the fetched page. -/
def collect_links_first (select : String → List Link) : List String → List Link
  | [] => []
  | s :: rest =>
    let links := select s
    if links.isEmpty then collect_links_first select rest else links

/-- Selector loop of `scrape_opportunities_improved`
(src/improved_scraper.py 175-177): `extend` with every selector's matches,
no break. -/
def collect_links_all (select : String → List Link) (selectors : List String) : List Link :=
  (selectors.map select).flatten

/-- Duplicate removal by href, preserving first-seen order, skipping empty
hrefs (src/app.py 890-897 and src/improved_scraper.py 179-186). -/
def unique_by_href (seen : List String) : List Link → List Link
  | [] => []
  | l :: rest =>
    if !(l.href == "") && !(seen.contains l.href) then l :: unique_by_href (l.href :: seen) rest
    else unique_by_href seen rest

/-! ## Relative-URL resolution and link validation
(src/app.py 948-954, src/improved_scraper.py 206-211)

`urljoin` is CPython's `urllib.parse.urljoin`, embedded for the inputs the
program feeds it (the base is a Source Profile URL; the href is arbitrary).
The RFC-2396 `;parameters` component is not split out separately: it is
folded into the path, which agrees with CPython whenever no path segment
contains `;` (no Source Profile URL and no claim input does). -/

/-- The `scheme_chars` class of `urllib.parse` (ASCII letters, digits, `+`, `-`, `.`). -/
def isSchemeChar (c : Char) : Bool := c.isAlpha || c.isDigit || c == '+' || c == '-' || c == '.'

/-- Scheme detection of `urlsplit`: the text before the first `:` is a
scheme iff it is nonempty, starts with an ASCII letter and consists of
scheme characters.  Returns the lowercased scheme and the remainder. -/
def splitScheme (url : String) : Option (String × String) :=
  match url.data.findIdx? (fun c => c == ':') with
  | some i =>
    (match url.data.take i with
     | [] => none
     | c :: pre =>
       if c.isAlpha && (c :: pre).all isSchemeChar then
         some (String.mk ((c :: pre).map Char.toLower), String.mk (url.data.drop (i + 1)))
       else none)
  | none => none

/-- Per `_splitnetloc`: the netloc runs to the next `/`, `?` or `#`. -/
def netlocEnd (c : Char) : Bool := c == '/' || c == '?' || c == '#'

/-- The five components of `urlsplit` (scheme, netloc, path, query, fragment). -/
structure UrlParts where
  scheme : String
  netloc : String
  path : String
  query : String
  fragment : String
deriving DecidableEq

/-- Embeds `urllib.parse.urlsplit(url, defaultScheme)` with `allow_fragments=True`:
detect the scheme (else use the default), split `//netloc`, then the
fragment at the first `#`, then the query at the first `?`. -/
def urlsplitE (url : String) (defaultScheme : String) : UrlParts :=
  let sr :=
    match splitScheme url with
    | some (s, r) => (s, r)
    | none => (defaultScheme, url)
  let scheme := sr.1
  let nr :=
    if pyStartswith sr.2 "//" then
      (String.mk ((sr.2.data.drop 2).takeWhile (fun c => !netlocEnd c)),
       String.mk ((sr.2.data.drop 2).dropWhile (fun c => !netlocEnd c)))
    else ("", sr.2)
  let netloc := nr.1
  let rf :=
    match nr.2.data.findIdx? (fun c => c == '#') with
    | some i => (String.mk (nr.2.data.take i), String.mk (nr.2.data.drop (i + 1)))
    | none => (nr.2, "")
  let pq :=
    match rf.1.data.findIdx? (fun c => c == '?') with
    | some i => (String.mk (rf.1.data.take i), String.mk (rf.1.data.drop (i + 1)))
    | none => (rf.1, "")
  { scheme := scheme, netloc := netloc, path := pq.1, query := pq.2, fragment := rf.2 }

/-- The `urllib.parse.uses_relative` list. -/
def uses_relative : List String :=
  ["", "ftp", "http", "gopher", "nntp", "imap", "wais", "file", "https",
   "shttp", "mms", "prospero", "rtsp", "rtspu", "sftp", "svn", "svn+ssh", "ws", "wss"]

/-- The `urllib.parse.uses_netloc` list. -/
def uses_netloc : List String :=
  ["", "ftp", "http", "gopher", "nntp", "telnet", "imap", "wais", "file",
   "mms", "https", "shttp", "snews", "prospero", "rtsp", "rtspu", "rsync",
   "svn", "svn+ssh", "sftp", "nfs", "git", "git+ssh", "ws", "wss"]

/-- Embeds `urllib.parse.urlunsplit`. -/
def urlunsplitE (p : UrlParts) : String :=
  let u := p.path
  let u :=
    if !(p.netloc == "") || pyStartswith u "//" then
      "//" ++ p.netloc ++ (if !(u == "") && !(pyStartswith u "/") then "/" ++ u else u)
    else u
  let u := if !(p.scheme == "") then p.scheme ++ ":" ++ u else u
  let u := if !(p.query == "") then u ++ "?" ++ p.query else u
  if !(p.fragment == "") then u ++ "#" ++ p.fragment else u

/-- Python's `s.split('/')` on a character list (always nonempty output;
`''.split('/') == ['']`). -/
def splitOnSlash : List Char → List (List Char)
  | [] => [[]]
  | c :: rest =>
    match splitOnSlash rest with
    | [] => [[]]
    | g :: gs => if c == '/' then [] :: g :: gs else (c :: g) :: gs

/-- Python's `'/'.join(...)` on character lists. -/
def joinWithSlash : List (List Char) → List Char
  | [] => []
  | [g] => g
  | g :: gs => g ++ '/' :: joinWithSlash gs

/-- The `..`/`.` segment resolution loop of `urljoin` (pop on `..`,
ignoring underflow; skip `.`). -/
def resolveSegAux (acc : List (List Char)) : List (List Char) → List (List Char)
  | [] => acc
  | seg :: rest =>
    if seg == ['.', '.'] then resolveSegAux acc.dropLast rest
    else if seg == ['.'] then resolveSegAux acc rest
    else resolveSegAux (acc ++ [seg]) rest

/-- Embeds `urllib.parse.urljoin(base, url)` (CPython ≥3.6 algorithm). -/
def urljoin (base url : String) : String :=
  if base == "" then url
  else if url == "" then base
  else
    let b := urlsplitE base ""
    let p := urlsplitE url b.scheme
    if !(p.scheme == b.scheme) || !(uses_relative.contains p.scheme) then url
    else
      let netloc :=
        if uses_netloc.contains p.scheme then
          (if !(p.netloc == "") then p.netloc else b.netloc)
        else p.netloc
      if uses_netloc.contains p.scheme && !(p.netloc == "") then
        urlunsplitE p
      else if p.path == "" then
        urlunsplitE { scheme := p.scheme, netloc := netloc, path := b.path,
                      query := if p.query == "" then b.query else p.query,
                      fragment := p.fragment }
      else
        let base_parts := splitOnSlash b.path.data
        let base_parts := if base_parts.getLastD [] == [] then base_parts else base_parts.dropLast
        let segments :=
          if pyStartswith p.path "/" then splitOnSlash p.path.data
          else
            (match base_parts ++ splitOnSlash p.path.data with
             | [] => []
             | first :: rest =>
               if rest.isEmpty then [first]
               else first :: ((rest.dropLast.filter (fun s => !(s == ([] : List Char)))) ++ [rest.getLastD []]))
        let resolved := resolveSegAux [] segments
        let resolved :=
          if segments.getLastD [] == ['.'] || segments.getLastD [] == ['.', '.'] then resolved ++ [[]]
          else resolved
        let joined := joinWithSlash resolved
        urlunsplitE { scheme := p.scheme, netloc := netloc,
                      path := if joined == [] then "/" else String.mk joined,
                      query := p.query, fragment := p.fragment }

/-- Absolute-URL resolution statement (src/app.py 948-950 and
src/improved_scraper.py 206-208): a nonempty href that does not start with
`http` is resolved against the Source Profile URL. -/
def resolve_step (base href : String) : String :=
  if !(href == "") && !(pyStartswith href "http") then urljoin base href else href

/-- Link discard statement of `scrape_opportunities` (src/app.py 952-954):
drop the processed href if it is empty, starts with `#`, or starts with
`javascript:`. -/
def validate_step_app (href : String) : Option String :=
  if href == "" || pyStartswith href "#" || pyStartswith href "javascript:" then none
  else some href

/-- Link discard statement of `scrape_opportunities_improved`
(src/improved_scraper.py 210-211): same but without the empty-href guard. -/
def validate_step_improved (href : String) : Option String :=
  if pyStartswith href "#" || pyStartswith href "javascript:" then none
  else some href

/-- Per-link URL processing of `scrape_opportunities` (src/app.py 948-954):
resolution, then validation, on the resolved target. -/
def resolve_and_validate_app (base href : String) : Option String :=
  validate_step_app (resolve_step base href)

/-- Per-link URL processing of `scrape_opportunities_improved`
(src/improved_scraper.py 206-211). -/
def resolve_and_validate_improved (base href : String) : Option String :=
  validate_step_improved (resolve_step base href)

/-! ## Identity keys (src/app.py 956-959, 1103-1105, 1317-1319)

CPython's builtin `hash` on `str` is SipHash keyed by a per-process random
secret (hash randomization); it is a fixed function only within one
interpreter process.  The embedding therefore takes the process's string
hash as an explicit parameter `pyHash`. -/

/-- Identity key built by `parse_perplexity_response` (src/app.py 1317-1319)
and `fallback_text_parsing` (1379): `f"{state_code}_perplexity_{hash(title)}_{date}"`. -/
def perplexity_opp_id (pyHash : String → Int) (state_code title date_bucket : String) : String :=
  state_code ++ "_perplexity_" ++ toString (pyHash title) ++ "_" ++ date_bucket

/-- Identity key built by `extract_opportunities_from_content`
(src/app.py 1103-1105): `f"{state_code}_firecrawl_{hash(title)}_{date}"`. -/
def firecrawl_opp_id (pyHash : String → Int) (state_code title date_bucket : String) : String :=
  state_code ++ "_firecrawl_" ++ toString (pyHash title) ++ "_" ++ date_bucket

/-! ## Candidate and stored opportunities (§3; src/app.py 976-985,
1104-1116, 1317-1327, 1745-1755) -/

/-- A candidate opportunity dict as built by the extractors.  Keys that only
some extractors set are `Option` (`none` = key absent; the store step
applies the code's `.get(key, default)`). -/
structure Candidate where
  id : String
  title : String
  state : String
  amount : String
  deadline : String
  url : String
  tags : List String
  found_date : String
  eligibility : Option String := none
  description : Option String := none
  contact_info : Option String := none
  source_type : Option String := none
  quality_score : Option Rat := none
  application_process : Option String := none
  source_reliability : Option String := none
deriving DecidableEq

/-- A row of the `opportunities` table (src/app.py 220-225).  `tags` is kept
as the list it serializes (`json.dumps` is injective on it). -/
structure StoredOpp where
  id : String
  title : String
  state : String
  amount : String
  deadline : String
  url : String
  tags : List String
  found_date : String
  eligibility : String
  description : String
  contact_info : String
  source_type : String
  quality_score : Rat
  application_process : String
  source_reliability : String
deriving DecidableEq

/-- The INSERT of `check_all_states` (src/app.py 1745-1755) with its
`.get` defaults. -/
def storeRow (o : Candidate) : StoredOpp :=
  { id := o.id, title := o.title, state := o.state, amount := o.amount,
    deadline := o.deadline, url := o.url, tags := o.tags, found_date := o.found_date,
    eligibility := o.eligibility.getD "", description := o.description.getD "",
    contact_info := o.contact_info.getD "", source_type := o.source_type.getD "unknown",
    quality_score := o.quality_score.getD 5,
    application_process := o.application_process.getD "",
    source_reliability := o.source_reliability.getD "medium" }

/-! ## Detail-fetch enrichment — `enhance_opportunity_with_firecrawl`
(src/app.py 1401-1545)

The per-field regex cascades are kept as the code's ordered
first-match-wins loops; the individual regex patterns are abstracted as
`String → Option String` (pattern ↦ captured group on the page content).
`scrape : String → Option String` abstracts `firecrawl_app.scrape_url`:
`none` covers both a raised exception and a falsy/markdown-less result,
which the source treats identically (the candidate is returned as-is). -/

/-- Deadline loop (src/app.py 1419-1432): first pattern whose stripped,
100-truncated match is nonempty and not `'Check website'` wins. -/
def apply_deadline : List (String → Option String) → String → Candidate → Candidate
  | [], _, o => o
  | p :: ps, content, o =>
    match p content with
    | some m =>
      let deadline := pyTruncate 100 (pyStrip m)
      if !(deadline == "") && !(deadline == "Check website") then { o with deadline := deadline }
      else apply_deadline ps content o
    | none => apply_deadline ps content o

/-- Amount loop (src/app.py 1434-1447): first pattern whose `$`-prefixed
match differs from the current amount wins. -/
def apply_amount : List (String → Option String) → String → Candidate → Candidate
  | [], _, o => o
  | p :: ps, content, o =>
    match p content with
    | some m =>
      let amount := "$" ++ m
      if !(amount == o.amount) then { o with amount := amount }
      else apply_amount ps content o
    | none => apply_amount ps content o

/-- Eligibility loop (src/app.py 1451-1465): stripped match longer than 20
characters wins, stored truncated to 300. -/
def apply_eligibility : List (String → Option String) → String → Candidate → Candidate
  | [], _, o => o
  | p :: ps, content, o =>
    match p content with
    | some m =>
      let e := pyStrip m
      if decide (20 < e.length) then { o with eligibility := some (pyTruncate 300 e) }
      else apply_eligibility ps content o
    | none => apply_eligibility ps content o

/-- Description loop (src/app.py 1467-1481): longer than 30, truncated to 500. -/
def apply_description : List (String → Option String) → String → Candidate → Candidate
  | [], _, o => o
  | p :: ps, content, o =>
    match p content with
    | some m =>
      let d := pyStrip m
      if decide (30 < d.length) then { o with description := some (pyTruncate 500 d) }
      else apply_description ps content o
    | none => apply_description ps content o

/-- Contact loop (src/app.py 1483-1497): longer than 5, truncated to 200. -/
def apply_contact : List (String → Option String) → String → Candidate → Candidate
  | [], _, o => o
  | p :: ps, content, o =>
    match p content with
    | some m =>
      let c := pyStrip m
      if decide (5 < c.length) then { o with contact_info := some (pyTruncate 200 c) }
      else apply_contact ps content o
    | none => apply_contact ps content o

/-- Application-process loop (src/app.py 1499-1513): longer than 20,
truncated to 300. -/
def apply_process : List (String → Option String) → String → Candidate → Candidate
  | [], _, o => o
  | p :: ps, content, o =>
    match p content with
    | some m =>
      let pr := pyStrip m
      if decide (20 < pr.length) then { o with application_process := some (pyTruncate 300 pr) }
      else apply_process ps content o
    | none => apply_process ps content o

/-- Tag updates from the page content (src/app.py 1516-1522). -/
def apply_content_tags (content : String) (o : Candidate) : Candidate :=
  let lower := pyLower content
  let o :=
    if listContains ("math").data lower.data || listContains ("mathematics").data lower.data then
      (if o.tags.contains "Mathematics" then o else { o with tags := o.tags ++ ["Mathematics"] })
    else o
  if listContains ("stem").data lower.data then
    (if o.tags.contains "STEM" then o else { o with tags := o.tags ++ ["STEM"] })
  else o

/-- Reliability and baseline quality score from origin class
(src/app.py 1525-1533). -/
def apply_reliability (o : Candidate) : Candidate :=
  if o.source_type == some "federal" then
    { o with source_reliability := some "high", quality_score := some 8 }
  else if o.source_type == some "state" then
    { o with source_reliability := some "high", quality_score := some 7 }
  else
    { o with source_reliability := some "medium", quality_score := some 6 }

/-- Python truthiness of an optional string field. -/
def optTruthy : Option String → Bool
  | some s => !(s == "")
  | none => false

/-- Quality boost when both eligibility and description were mined
(src/app.py 1536-1537). -/
def apply_quality_boost (o : Candidate) : Candidate :=
  if optTruthy o.eligibility && optTruthy o.description then
    { o with quality_score := some (min 10 (o.quality_score.getD 5 + 3 / 2)) }
  else o

/-- The six per-field pattern cascades of the enrichment step. -/
structure MinerPatterns where
  deadline : List (String → Option String)
  amount : List (String → Option String)
  eligibility : List (String → Option String)
  description : List (String → Option String)
  contact : List (String → Option String)
  process : List (String → Option String)

/-- Embeds `enhance_opportunity_with_firecrawl` (src/app.py 1401-1545): return the
candidate untouched when the crawling client is absent, the candidate has
no URL, or the crawl fails; otherwise mine the fetched content field by
field.  The whole body is wrapped in `try/except Exception: return
opportunity`, so no error escapes to the caller. -/
def enhance_opportunity_with_firecrawl (firecrawlAvailable : Bool)
    (scrape : String → Option String) (pats : MinerPatterns)
    (opportunity : Candidate) : Candidate :=
  if !firecrawlAvailable || opportunity.url == "" then opportunity
  else
    match scrape opportunity.url with
    | none => opportunity
    | some content =>
      let o := apply_deadline pats.deadline content opportunity
      let o := apply_amount pats.amount content o
      let o := apply_eligibility pats.eligibility content o
      let o := apply_description pats.description content o
      let o := apply_contact pats.contact content o
      let o := apply_process pats.process content o
      let o := apply_content_tags content o
      let o := apply_reliability o
      apply_quality_boost o

/-! ## Source Profiles — `STATE_CONFIGS` (src/app.py 84-211) -/

/-- One `STATE_CONFIGS` entry. -/
structure Config where
  code : String
  name : String
  url : String
  selectors : List String
  status : String
  source_type : Option String := none
  note : Option String := none
deriving DecidableEq

def cfgTX : Config :=
  { code := "TX", name := "Texas", url := "https://tea.texas.gov/finance-and-grants/grants",
    selectors := [".field--name-body a", ".sectional-box a", "strong a", ".field--type-text-with-summary a"],
    status := "active", source_type := some "state",
    note := some "T-STEM grants and TEA funding opportunities" }

def cfgCA : Config :=
  { code := "CA", name := "California", url := "https://www.cde.ca.gov/fg/fo/af/",
    selectors := ["main a", ".content a", "table a"], status := "active",
    source_type := some "state",
    note := some "Golden State Pathways Program and CDE funding opportunities" }

def cfgFL : Config :=
  { code := "FL", name := "Florida",
    url := "https://www.fldoe.org/academics/career-adult-edu/funding-opportunities/2024-2025-funding-opportunities/",
    selectors := [".content a", "main a", "table a"], status := "active",
    source_type := some "state",
    note := some "Computer Science grants and FDOE funding opportunities" }

def cfgNY : Config :=
  { code := "NY", name := "New York", url := "https://www.nysed.gov/funding-opportunities",
    selectors := [".content-area a", "main a", "article a"], status := "needs_verification" }

def cfgIL : Config :=
  { code := "IL", name := "Illinois", url := "https://www.isbe.net/Pages/Grants.aspx",
    selectors := [".ms-rtestate-field a", "main a", ".content a"], status := "needs_verification" }

def cfgPA : Config :=
  { code := "PA", name := "Pennsylvania",
    url := "https://www.education.pa.gov/Teachers%20-%20Administrators/Pages/Grant-Opportunities.aspx",
    selectors := [".ms-rtestate-field a", "main a", ".content a"], status := "needs_verification" }

def cfgOH : Config :=
  { code := "OH", name := "Ohio",
    url := "https://education.ohio.gov/Topics/Finance-and-Funding/School-Funding/Grant-Opportunities",
    selectors := [".content a", "main a", "article a"], status := "needs_verification" }

def cfgGA : Config :=
  { code := "GA", name := "Georgia",
    url := "https://www.gadoe.org/External-Affairs-and-Policy/communications/Pages/PressReleaseDetails.aspx",
    selectors := [".content a", "main a", "article a"], status := "needs_verification" }

def cfgNC : Config :=
  { code := "NC", name := "North Carolina",
    url := "https://www.dpi.nc.gov/districts-schools/federal-program-monitoring/grants-funding",
    selectors := [".field-content a", "main a", ".content a"], status := "needs_verification" }

def cfgMI : Config :=
  { code := "MI", name := "Michigan", url := "https://www.michigan.gov/mde/services/grants",
    selectors := [".page-content a", "main a", ".content a"], status := "needs_verification" }

def cfgVA : Config :=
  { code := "VA", name := "Virginia",
    url := "https://www.doe.virginia.gov/parents-students/for-parents/k-12-learning-acceleration-grants",
    selectors := ["main a", ".content a", "article a"], status := "active",
    source_type := some "direct_crawl" }

def cfgCO : Config :=
  { code := "CO", name := "Colorado", url := "https://www.cde.state.co.us/cdeawards/grants",
    selectors := [".content a", "main a", ".grants-list a"], status := "active",
    source_type := some "direct_crawl" }

def cfgOR : Config :=
  { code := "OR", name := "Oregon",
    url := "https://www.oregon.gov/ode/schools-and-districts/grants/pages/k-12-school-funding-information.aspx",
    selectors := [".content a", "main a", ".grant-links a"], status := "active",
    source_type := some "direct_crawl" }

def cfgAZ : Config :=
  { code := "AZ", name := "Arizona", url := "https://www.azed.gov/grants/",
    selectors := [".content a", "main a", ".grant-opportunities a"],
    status := "needs_verification", source_type := some "direct_crawl" }

def cfgWA : Config :=
  { code := "WA", name := "Washington", url := "https://www.k12.wa.us/about-ospi/grants-contracts",
    selectors := [".content a", "main a", ".grants-list a"],
    status := "needs_verification", source_type := some "direct_crawl" }

def cfgNSF : Config :=
  { code := "NSF_DRK12", name := "NSF Discovery Research PreK-12",
    url := "https://www.nsf.gov/funding/opportunities/drk-12-discovery-research-prek-12",
    selectors := [".content a", "main a", ".opportunity-details a"], status := "active",
    source_type := some "federal",
    note := some "$50M available for PreK-12 STEM education research" }

def cfgEIR : Config :=
  { code := "ED_EIR", name := "Education Innovation and Research",
    url := "https://www.ed.gov/grants-and-programs/grants-special-populations/economically-disadvantaged-students/education-innovation-and-research",
    selectors := [".content a", "main a", ".grant-details a"], status := "active",
    source_type := some "federal",
    note := some "Innovation grants for early-phase, mid-phase, and expansion" }

def cfgGRANTS : Config :=
  { code := "GRANTS_GOV", name := "Grants.gov Education",
    url := "https://www.grants.gov/search-grants?keywords=STEM",
    selectors := [".grant-listing a", ".results a", ".opportunity-link"], status := "active",
    source_type := some "federal", note := some "Federal STEM grants portal" }

/-- The `STATE_CONFIGS` roster, in dict-insertion order. -/
def STATE_CONFIGS : List Config :=
  [cfgTX, cfgCA, cfgFL, cfgNY, cfgIL, cfgPA, cfgOH, cfgGA, cfgNC, cfgMI,
   cfgVA, cfgCO, cfgOR, cfgAZ, cfgWA, cfgNSF, cfgEIR, cfgGRANTS]

/-! ## Source Strategy Orchestrator (src/app.py 1002-1027, 1547-1578,
1715-1764)

The three per-source extraction strategies are abstracted as functions of
the Source Profile.  Fixing these functions is exactly the claims'
"identical upstream content in the same date-bucket and process":
each strategy (`firecrawl_crawl_source`'s pipeline, Perplexity discovery,
`scrape_opportunities`) is a deterministic function of the fetched
content, the process hash and the date bucket. -/

/-- Presence of the two global AI-service client handles
(`perplexity_client`, `firecrawl_app`). -/
structure Clients where
  perplexity : Bool
  firecrawl : Bool

/-- The strategy outcomes for the current run. `official` is the (already
internally enriched) batch of `firecrawl_crawl_source`, `aiDiscovery` the
batch of `discover_opportunities_with_perplexity`, `structural` the batch
of `scrape_opportunities`; `enhance` is the per-candidate detail-fetch
enrichment applied by `ai_powered_scrape_opportunities` step 2. -/
structure Strategies where
  official : Config → List Candidate
  aiDiscovery : Config → List Candidate
  structural : Config → List Candidate
  enhance : Candidate → Candidate

/-- Embeds `crawl_official_sources` (src/app.py 1002-1027): skip `inactive`
sources; crawl with Firecrawl when its client exists, else fall back to
Perplexity AI discovery. -/
def crawl_official_sources (clients : Clients) (S : Strategies) (c : Config) : List Candidate :=
  if c.status == "inactive" then []
  else if clients.firecrawl then S.official c
  else S.aiDiscovery c

/-- Embeds `ai_powered_scrape_opportunities` (src/app.py 1547-1578): official
crawl first; if empty, traditional structural scrape; if still empty,
return `[]`; finally enhance every candidate of the chosen batch. -/
def ai_powered_scrape_opportunities (clients : Clients) (S : Strategies) (c : Config) : List Candidate :=
  let opportunities := crawl_official_sources clients S c
  let opportunities := if opportunities.isEmpty then S.structural c else opportunities
  if opportunities.isEmpty then []
  else opportunities.map S.enhance

/-- The per-source strategy selection of `check_all_states`
(src/app.py 1729-1737): the AI-powered chain when both clients are
configured (falling back to a traditional scrape when it comes back
empty), else the traditional scrape alone. -/
def select_opportunities (clients : Clients) (S : Strategies) (c : Config) : List Candidate :=
  if clients.perplexity && clients.firecrawl then
    let opps := ai_powered_scrape_opportunities clients S c
    if opps.isEmpty then S.structural c else opps
  else S.structural c

/-- The `SELECT id FROM opportunities WHERE id = ?` existence lookup. -/
def hasId (db : List StoredOpp) (i : String) : Bool := db.any (fun r => r.id == i)

/-- The dedup/insert loop of `check_all_states` (src/app.py 1739-1755):
for each candidate, look its id up; if absent, append it to the new-batch
and INSERT its row.  Returns the new-opportunity batch and the updated
table. -/
def processList (db : List StoredOpp) : List Candidate → List Candidate × List StoredOpp
  | [] => ([], db)
  | o :: rest =>
    if hasId db o.id then processList db rest
    else
      (o :: (processList (db ++ [storeRow o]) rest).1,
       (processList (db ++ [storeRow o]) rest).2)

/-- The per-source loop of `check_all_states` (src/app.py 1723-1755): skip
sources whose status is not exactly `active`; run the strategy selection
for the rest and feed the results through the dedup/insert loop. -/
def runStates (select : Config → List Candidate) : List Config → List StoredOpp → List Candidate × List StoredOpp
  | [], db => ([], db)
  | c :: rest, db =>
    if c.status == "active" then
      ((processList db (select c)).1 ++ (runStates select rest (processList db (select c)).2).1,
       (runStates select rest (processList db (select c)).2).2)
    else runStates select rest db

/-- Embeds `check_all_states` (src/app.py 1715-1764): iterate the configured
sources with the strategy selection and dedup gate.  (The final
`send_alerts` call reads the returned batch and the subscriber table only;
it does not touch the opportunities table.) -/
def check_all_states (clients : Clients) (S : Strategies) (configs : List Config)
    (db : List StoredOpp) : List Candidate × List StoredOpp :=
  runStates (select_opportunities clients S) configs db

/-! ## Concrete instances used by the theorems -/

/-- A concrete `soup.select` outcome: the first selector matches one
funding link, the second a different one. -/
def selTwo : String → List Link := fun s =>
  if s = "main a" then [⟨"Apply for Education Grant", "https://x.gov/grant1"⟩]
  else if s = "table a" then [⟨"STEM Funding RFP", "https://x.gov/grant2"⟩]
  else []

/-- A well-formed Source Profile URL: scheme `https` and a nonempty host
(every `STATE_CONFIGS` URL satisfies this). -/
def httpsBaseWf (base : String) : Bool :=
  (urlsplitE base "").scheme == "https" && !((urlsplitE base "").netloc == "")

/-- A concrete candidate opportunity used to instantiate theorems. -/
def sampleCand : Candidate :=
  { id := "TX_perplexity_123_20250101", title := "STEM Grant Application Open",
    state := "Texas", amount := "$50,000", deadline := "June 1, 2026",
    url := "https://tea.texas.gov/apply", tags := ["K-12", "Education"],
    found_date := "2025-01-01T09:00:00" }

/-- Empty per-field pattern cascades. -/
def emptyPatterns : MinerPatterns := ⟨[], [], [], [], [], []⟩

/-- A strategy environment where only AI discovery finds anything. -/
def stratAIOnly : Strategies :=
  { official := fun _ => [], aiDiscovery := fun _ => [sampleCand],
    structural := fun _ => [], enhance := id }

/-! ## Theorems -/

/-- The validation gate of `clean_extracted_url`: whatever the cleaning
steps produced, the returned value is empty or satisfies every check. -/
theorem clean_url_gate (u r : String)
    (hr : r = if !(u == "") && pyStartswith u "http" && decide (10 < u.length) && domainMatch u then u else "") :
    r = "" ∨ (pyStartswith r "http" = true ∧ 10 < r.length ∧ domainMatch r = true) := by
  by_cases h : (!(u == "") && pyStartswith u "http" && decide (10 < u.length) && domainMatch u) = true
  · subst hr
    rw [if_pos h]
    right
    simp only [Bool.and_eq_true] at h
    exact ⟨h.1.1.2, of_decide_eq_true h.1.2, h.2⟩
  · subst hr
    rw [if_neg h]
    left
    rfl

/-- C6: for every input, the URL Sanitizer returns (totally, hence without
raising) either the empty string or a string that starts with `http`, has
length greater than 10 and matches the domain-with-TLD regex (whose TLD
part is `[a-zA-Z]{2,}`); and `"https://a.example.com/x)[1]."` is cleaned
to `"https://a.example.com/x"`. -/
theorem c6_url_sanitizer :
    (∀ s : String,
      clean_extracted_url s = "" ∨
        (pyStartswith (clean_extracted_url s) "http" = true ∧
         10 < (clean_extracted_url s).length ∧
         domainMatch (clean_extracted_url s) = true)) ∧
    clean_extracted_url "https://a.example.com/x)[1]." = "https://a.example.com/x" := by
  constructor
  · intro s
    by_cases h0 : (s == "") = true
    · left
      simp [clean_extracted_url, h0]
    · have h0' : (s == "") = false := by simpa using h0
      exact clean_url_gate (pyStrip (removeTrailingPunct (removeFootnote (pyStrip s)))) _
        (by simp only [clean_extracted_url, h0', Bool.false_eq_true, if_false])
  · decide

/-- C7: the Amount Normalizer crashes on `"TBD."`: the regex capture
`([\d.]+)` matches the bare period, and `float('.')` raises `ValueError`
(the claim says the function never raises).  On the claim's three example
inputs it behaves as stated: `$1.5M` ↦ 1500000, `grant of 250K` ↦ 250000,
`TBD` ↦ no match. -/
theorem c7_amount_normalizer :
    extract_dollar_amount "TBD." = .error () ∧
    extract_dollar_amount "$1.5M" = .ok (some 1500000) ∧
    extract_dollar_amount "grant of 250K" = .ok (some 250000) ∧
    extract_dollar_amount "TBD" = .ok none := by
  refine ⟨rfl, ?_, ?_, rfl⟩
  · have h : extract_dollar_amount "$1.5M" =
        .ok (some (((natOfDigits ['1'] : Rat) + (natOfDigits ['5'] : Rat) / ((10 : Rat) ^ (1 : Nat))) * multiplierValue (some 'M'))) := rfl
    rw [h]
    norm_num [natOfDigits, multiplierValue, show ('1').toNat = 49 from rfl, show ('5').toNat = 53 from rfl]
  · have h : extract_dollar_amount "grant of 250K" =
        .ok (some ((natOfDigits ['2', '5', '0'] : Rat) * multiplierValue (some 'K'))) := rfl
    rw [h]
    norm_num [natOfDigits, multiplierValue, show ('2').toNat = 50 from rfl,
      show ('5').toNat = 53 from rfl, show ('0').toNat = 48 from rfl]

/-- The early-return cascade of the Quality Filter as a Boolean identity. -/
theorem quality_cascade (a b c : Bool) :
    (if a then false else if b then false else if !c then false else true) = (c && !a && !b) := by
  cases a <;> cases b <;> cases c <;> rfl

/-- C3: the Quality Filter accepts iff the combined title+url text contains
an actionable term, the title contains no denylist term and the URL
contains no denylist fragment; the decision is independent of the amount
and deadline arguments; and the spec's two examples behave as stated. -/
theorem c3_quality_filter_iff :
    (∀ title url amount deadline,
      is_high_quality_opportunity title url amount deadline = quality_filter_spec title url) ∧
    (∀ title url amount deadline amount' deadline',
      is_high_quality_opportunity title url amount deadline =
        is_high_quality_opportunity title url amount' deadline') ∧
    is_high_quality_opportunity "STEM Grant Application Open" "https://x.gov/apply" "TBD" "TBD" = true ∧
    is_high_quality_opportunity "Grant Budget Archive" "https://x.gov/archive/2020.pdf" "$5,000" "June 1, 2026" = false := by
  have main : ∀ title url amount deadline,
      is_high_quality_opportunity title url amount deadline = quality_filter_spec title url := by
    intro title url amount deadline
    simp only [is_high_quality_opportunity, quality_filter_spec]
    exact quality_cascade _ _ _
  refine ⟨main, ?_, by decide, by decide⟩
  intro title url amount deadline amount' deadline'
  rw [main, main]

/-- C1: the identity key of the AI-discovery paths is built from CPython's
salted builtin string hash, so two process runs whose hash functions
differ on the title produce different keys for the same source, same
title and same date bucket. -/
theorem c1_identity_key_process_dependent :
    perplexity_opp_id (fun _ => 0) "TX" "STEM Grant Application Open" "20251012" ≠
      perplexity_opp_id (fun _ => 1) "TX" "STEM Grant Application Open" "20251012" := by
  decide


/-- C5 counterexample: in `scrape_opportunities_improved`, with the first
selector already non-empty, a link matched only by the second selector
still appears in the deduplicated link set — the claimed winner-take-all
short-circuit does not hold for this implementation. -/
theorem c5_counterexample :
    (selTwo "main a").isEmpty = false ∧
    (⟨"STEM Funding RFP", "https://x.gov/grant2"⟩ : Link) ∉ selTwo "main a" ∧
    (⟨"STEM Funding RFP", "https://x.gov/grant2"⟩ : Link) ∈
      unique_by_href [] (collect_links_all selTwo ["main a", "table a"]) := by
  decide

/-- C5 amended: `scrape_opportunities` (app.py) is winner-take-all — its
link set is exactly the match set of the first selector with a non-empty
result; `scrape_opportunities_improved` instead merges the matches of
every selector. -/
theorem c5_first_selector_amended :
    (∀ (select : String → List Link) (selectors : List String),
      collect_links_first select selectors =
        (match selectors.find? (fun s => !(select s).isEmpty) with
         | some s => select s
         | none => [])) ∧
    (∀ (select : String → List Link) (selectors : List String) (l : Link),
      l ∈ collect_links_all select selectors ↔ ∃ s ∈ selectors, l ∈ select s) := by
  constructor
  · intro select selectors
    induction selectors with
    | nil => rfl
    | cons s rest ih =>
      by_cases h : (select s).isEmpty = true
      · simp only [collect_links_first, h, if_true, List.find?, Bool.not_true]
        exact ih
      · have h' : (select s).isEmpty = false := by simpa using h
        simp [collect_links_first, h', List.find?]
  · intro select selectors l
    simp only [collect_links_all, List.mem_flatten, List.mem_map]
    constructor
    · rintro ⟨a, ⟨s, hs, rfl⟩, hl⟩
      exact ⟨s, hs, hl⟩
    · rintro ⟨s, hs, hl⟩
      exact ⟨select s, ⟨s, hs, rfl⟩, hl⟩

/-- A list is a prefix of itself followed by anything. -/
theorem isPrefixOf_self_append (l m : List Char) : l.isPrefixOf (l ++ m) = true := by
  induction l with
  | nil => simp
  | cons c cs ih => simp [List.isPrefixOf, ih]

/-- Prefixes are preserved by appending on the right. -/
theorem isPrefixOf_append_mono (p u v : List Char) (h : p.isPrefixOf u = true) :
    p.isPrefixOf (u ++ v) = true := by
  induction p generalizing u with
  | nil => simp
  | cons a as ih =>
    cases u with
    | nil => simp [List.isPrefixOf] at h
    | cons b bs =>
      simp only [List.isPrefixOf, Bool.and_eq_true] at h ⊢
      exact ⟨h.1, ih bs h.2⟩

/-- Property: `startswith` is preserved by appending on the right. -/
theorem pyStartswith_append_mono (u v p : String) (h : pyStartswith u p = true) :
    pyStartswith (u ++ v) p = true := by
  unfold pyStartswith at h ⊢
  rw [String.data_append]
  exact isPrefixOf_append_mono _ _ _ h

/-- Property: `startswith` holds for the string's own leading part. -/
theorem pyStartswith_self_append (p y : String) : pyStartswith (p ++ y) p = true := by
  unfold pyStartswith
  rw [String.data_append]
  exact isPrefixOf_self_append _ _

/-- Unsplitting parts with scheme `https` and a nonempty netloc yields
a string starting with `https://`. -/
theorem urlunsplit_https (p : UrlParts) (hs : p.scheme = "https")
    (hn : (p.netloc == "") = false) :
    pyStartswith (urlunsplitE p) "https://" = true := by
  have key : ∀ n x : String, ("https" ++ ":" ++ ("//" ++ n ++ x)) = "https://" ++ (n ++ x) := by
    intro n x
    cases n
    cases x
    rfl
  unfold urlunsplitE
  rw [hs, hn]
  simp only [Bool.not_false, Bool.true_or, if_true, show (("https" : String) == "") = false from rfl,
    Bool.not_false, if_true]
  by_cases hq : (p.query == "") = true <;> by_cases hf : (p.fragment == "") = true <;>
    simp only [hq, hf, Bool.not_true, Bool.not_false, if_true, if_false, Bool.false_eq_true] <;>
    (rw [key]; exact pyStartswith_self_append _ _)


/-- When the url carries no scheme of its own, `urlsplit` adopts the
default scheme. -/
theorem urlsplitE_scheme_of_none (u d : String) (h : splitScheme u = none) :
    (urlsplitE u d).scheme = d := by
  simp [urlsplitE, h]

/-- Resolving a schemeless href against a well-formed `https` base always
produces an absolute `https://` URL. -/
theorem urljoin_schemeless_absolute (base href : String) (hb : httpsBaseWf base = true)
    (hs : splitScheme href = none) (h0 : (href == "") = false) :
    pyStartswith (urljoin base href) "https://" = true := by
  have hb0 : (base == "") = false := by
    by_cases h : (base == "") = true
    · have : base = "" := by simpa using h
      subst this
      exact absurd hb (by decide)
    · simpa using h
  have hbs : (urlsplitE base "").scheme = "https" := by
    have := (Bool.and_eq_true _ _).mp hb
    simpa using this.1
  have hbn : ((urlsplitE base "").netloc == "") = false := by
    have := (Bool.and_eq_true _ _).mp hb
    simpa using this.2
  have hps : (urlsplitE href "https").scheme = "https" := by
    conv_lhs => rw [← hbs]
    rw [urlsplitE_scheme_of_none _ _ hs, hbs]
  unfold urljoin
  rw [hb0, h0]
  simp only [Bool.false_eq_true, if_false, hbs, hps, beq_self_eq_true, Bool.not_true,
    Bool.false_or, show uses_relative.contains "https" = true from rfl,
    show uses_netloc.contains "https" = true from rfl, Bool.not_false, Bool.true_and,
    if_true]
  by_cases hpn : ((urlsplitE href "https").netloc == "") = true
  · simp only [hpn, Bool.not_true, Bool.false_eq_true, if_false, Bool.and_false, if_true]
    by_cases hpp : ((urlsplitE href "https").path == "") = true
    · simp only [hpp, if_true]
      exact urlunsplit_https _ rfl hbn
    · simp only [hpp, Bool.false_eq_true, if_false]
      exact urlunsplit_https _ rfl hbn
  · have hpn' : ((urlsplitE href "https").netloc == "") = false := by simpa using hpn
    simp only [hpn', Bool.not_false, Bool.and_true, if_true]
    exact urlunsplit_https _ hps hpn'

/-- C8 counterexample: the href `JavaScript:void(0)` (whose parsed scheme
is `javascript` — `urlsplit` lowercases schemes) survives the link
validation of `scrape_opportunities`, because the discard check compares
against the exact lowercase prefix `javascript:`.  So an output URL can
use the javascript scheme, contradicting the claim. -/
theorem c8_counterexample :
    resolve_and_validate_app "https://tea.texas.gov/finance-and-grants/grants" "JavaScript:void(0)" =
      some "JavaScript:void(0)" ∧
    (urlsplitE "JavaScript:void(0)" "").scheme = "javascript" := by
  constructor
  · decide
  · decide

/-- C8 amended: every schemeless (relative) href that is not already
`http`-prefixed is resolved against the Source Profile's canonical URL to
an absolute `https://` URL before validation, and every link whose
processed URL is empty or starts with the exact strings `#` or
`javascript:` is discarded — so no output URL is fragment-only or carries
the literal `javascript:` prefix (a mixed-case scheme such as
`JavaScript:` is not filtered). -/
theorem c8_resolution_amended (base href : String) (hb : httpsBaseWf base = true) :
    (∀ u, resolve_and_validate_app base href = some u →
      pyStartswith u "#" = false ∧ pyStartswith u "javascript:" = false) ∧
    (splitScheme href = none → pyStartswith href "http" = false →
      ∀ u, resolve_and_validate_app base href = some u →
        pyStartswith u "https://" = true) := by
  have validate_some : ∀ v u, validate_step_app v = some u → u = v ∧
      (v == "") = false ∧ pyStartswith v "#" = false ∧ pyStartswith v "javascript:" = false := by
    intro v u hu
    unfold validate_step_app at hu
    split at hu
    · exact absurd hu (by simp)
    · rename_i hcond
      injection hu with hu'
      simp only [Bool.or_eq_true, not_or, Bool.not_eq_true] at hcond
      exact ⟨hu'.symm, hcond.1.1, hcond.1.2, hcond.2⟩
  constructor
  · intro u hu
    obtain ⟨rfl, -, h2, h3⟩ := validate_some _ u hu
    exact ⟨h2, h3⟩
  · intro hscheme hhttp u hu
    obtain ⟨rfl, -, -, -⟩ := validate_some _ u hu
    by_cases h0 : (href == "") = true
    · have : href = "" := by simpa using h0
      subst this
      simp [resolve_and_validate_app, resolve_step, validate_step_app] at hu
    · have h0' : (href == "") = false := by simpa using h0
      have hres : resolve_step base href = urljoin base href := by
        unfold resolve_step
        rw [h0', hhttp]
        rfl
      rw [hres]
      exact urljoin_schemeless_absolute base href hb hscheme h0'

/-- C8 amended witness: the Texas base URL is well-formed and the relative
href `/funding` is resolved to an absolute validated `https://` URL. -/
theorem c8_resolution_amended_witness :
    httpsBaseWf "https://tea.texas.gov/finance-and-grants/grants" = true ∧
    pyStartswith "https://tea.texas.gov/funding" "https://" = true :=
  ⟨by decide,
   (c8_resolution_amended "https://tea.texas.gov/finance-and-grants/grants" "/funding"
      (by decide)).2 (by decide) (by decide) "https://tea.texas.gov/funding" (by decide)⟩


/-- A strategy environment where the official crawl finds a candidate. -/
def stratOfficial : Strategies :=
  { official := fun _ => [sampleCand], aiDiscovery := fun _ => [],
    structural := fun _ => [], enhance := id }

/-- C9: when the detail crawl fails — `scrape_url` raises or returns no
markdown (`scrape _ = none`) — the enrichment returns the candidate
unchanged, field for field, and (being total) propagates no error. -/
theorem c9_enrichment_noop_on_failure (firecrawlAvailable : Bool)
    (scrape : String → Option String) (pats : MinerPatterns) (o : Candidate)
    (h : scrape o.url = none) :
    enhance_opportunity_with_firecrawl firecrawlAvailable scrape pats o = o := by
  unfold enhance_opportunity_with_firecrawl
  by_cases hg : (!firecrawlAvailable || o.url == "") = true
  · rw [if_pos hg]
  · rw [if_neg hg, h]

/-- C9 witness: a concrete failing crawl leaves the sample candidate
untouched. -/
theorem c9_enrichment_witness :
    (fun (_ : String) => (none : Option String)) sampleCand.url = none ∧
    enhance_opportunity_with_firecrawl true (fun _ => none) emptyPatterns sampleCand = sampleCand :=
  ⟨rfl, c9_enrichment_noop_on_failure true (fun _ => none) emptyPatterns sampleCand rfl⟩

/-- C4 counterexample: with both AI clients configured, the official crawl
empty and AI discovery holding one candidate, the orchestrator returns the
empty batch — AI discovery is never attempted as a fallback, so the claimed
order (official → AI → structural, stop at first non-empty) is wrong. -/
theorem c4_counterexample :
    stratAIOnly.official cfgTX = [] ∧
    stratAIOnly.aiDiscovery cfgTX = [sampleCand] ∧
    stratAIOnly.structural cfgTX = [] ∧
    select_opportunities ⟨true, true⟩ stratAIOnly cfgTX = [] := by
  refine ⟨rfl, rfl, rfl, rfl⟩

/-- C4 amended: with both AI clients configured and an active source, the
orchestrator attempts the official-source crawl and then the structural
scrape, stopping at the first non-empty batch (each enhanced per
candidate); the AI-discovery strategy result does not enter this chain at
all (it substitutes for the official crawl only when the crawling client
is absent), and the returned batch comes from exactly one strategy. -/
theorem isEmpty_map (f : Candidate → Candidate) (l : List Candidate) :
    (l.map f).isEmpty = l.isEmpty := by
  cases l <;> rfl

theorem c4_strategy_order_amended (S : Strategies) (c : Config) (h : c.status = "active") :
    select_opportunities ⟨true, true⟩ S c =
      (if (S.official c).isEmpty then (S.structural c).map S.enhance
       else (S.official c).map S.enhance) := by
  have hinact : (c.status == "inactive") = false := by
    rw [h]
    rfl
  unfold select_opportunities ai_powered_scrape_opportunities crawl_official_sources
  simp only [hinact, Bool.false_eq_true, if_false, Bool.and_self, if_true]
  by_cases ho : (S.official c).isEmpty = true
  · simp only [ho, if_true]
    by_cases hs : (S.structural c).isEmpty = true
    · have hs' : S.structural c = [] := List.isEmpty_iff.mp hs
      simp [ho, hs, hs']
    · have hs' : (S.structural c).isEmpty = false := by simpa using hs
      have hm : ((S.structural c).map S.enhance).isEmpty = false := by
        rw [isEmpty_map, hs']
      simp [ho, hs', hm]
  · have ho' : (S.official c).isEmpty = false := by simpa using ho
    have hm : ((S.official c).map S.enhance).isEmpty = false := by
      rw [isEmpty_map, ho']
    simp [ho', hm]

/-- C4 amended witness: an active federal source whose official crawl
succeeds returns exactly the enhanced official batch. -/
theorem c4_strategy_order_amended_witness :
    cfgNSF.status = "active" ∧
    select_opportunities ⟨true, true⟩ stratOfficial cfgNSF =
      (if (stratOfficial.official cfgNSF).isEmpty then
        (stratOfficial.structural cfgNSF).map stratOfficial.enhance
       else (stratOfficial.official cfgNSF).map stratOfficial.enhance) :=
  ⟨rfl, c4_strategy_order_amended stratOfficial cfgNSF rfl⟩

/-- The dedup/insert loop never removes ids from the table. -/
theorem processList_preserves (l : List Candidate) (db : List StoredOpp) (i : String)
    (h : hasId db i = true) : hasId (processList db l).2 i = true := by
  induction l generalizing db with
  | nil => exact h
  | cons o rest ih =>
    by_cases hid : hasId db o.id = true
    · simp only [processList, hid, if_true]
      exact ih db h
    · simp only [processList, hid, Bool.false_eq_true, if_false]
      refine ih _ ?_
      simp only [hasId, List.any_append] at h ⊢
      simp [h]

/-- After the dedup/insert loop, every processed candidate's id is in the
table. -/
theorem processList_mem (l : List Candidate) (db : List StoredOpp) (o : Candidate)
    (ho : o ∈ l) : hasId (processList db l).2 o.id = true := by
  induction l generalizing db with
  | nil => cases ho
  | cons x rest ih =>
    by_cases hid : hasId db x.id = true
    · simp only [processList, hid, if_true]
      rcases List.mem_cons.mp ho with h1 | h2
      · subst h1
        exact processList_preserves rest db o.id hid
      · exact ih db h2
    · simp only [processList, hid, Bool.false_eq_true, if_false]
      have hins : hasId (db ++ [storeRow x]) x.id = true := by
        simp [hasId, List.any_append, storeRow]
      rcases List.mem_cons.mp ho with h1 | h2
      · subst h1
        exact processList_preserves rest _ o.id hins
      · exact ih _ h2

/-- If every candidate's id is already in the table, the dedup/insert loop
is the identity: no new batch, no row touched. -/
theorem processList_stable (l : List Candidate) (db : List StoredOpp)
    (h : ∀ o ∈ l, hasId db o.id = true) : processList db l = ([], db) := by
  induction l with
  | nil => rfl
  | cons o rest ih =>
    have ho := h o (List.mem_cons_self o rest)
    simp only [processList, ho, if_true]
    exact ih (fun o' ho' => h o' (List.mem_cons_of_mem _ ho'))

/-- The per-source loop never removes ids from the table. -/
theorem runStates_preserves (select : Config → List Candidate) (configs : List Config)
    (db : List StoredOpp) (i : String) (h : hasId db i = true) :
    hasId (runStates select configs db).2 i = true := by
  induction configs generalizing db with
  | nil => exact h
  | cons c rest ih =>
    by_cases hc : (c.status == "active") = true
    · simp only [runStates, hc, if_true]
      exact ih _ (processList_preserves _ _ _ h)
    · simp only [runStates, hc, Bool.false_eq_true, if_false]
      exact ih _ h

/-- After a full run, every candidate produced by an active source has its
id in the table. -/
theorem runStates_mem (select : Config → List Candidate) (configs : List Config)
    (c : Config) (hc : c ∈ configs) (ha : (c.status == "active") = true)
    (o : Candidate) (ho : o ∈ select c) (db : List StoredOpp) :
    hasId (runStates select configs db).2 o.id = true := by
  induction configs generalizing db with
  | nil => cases hc
  | cons c' rest ih =>
    rcases List.mem_cons.mp hc with h1 | h2
    · subst h1
      simp only [runStates, ha, if_true]
      exact runStates_preserves _ _ _ _ (processList_mem _ _ _ ho)
    · by_cases hc' : (c'.status == "active") = true
      · simp only [runStates, hc', if_true]
        exact ih h2 _
      · simp only [runStates, hc', Bool.false_eq_true, if_false]
        exact ih h2 _

/-- If every active source's candidates are already in the table, a full
run finds nothing new and leaves the table unchanged. -/
theorem runStates_stable (select : Config → List Candidate) (configs : List Config)
    (db : List StoredOpp)
    (h : ∀ c ∈ configs, (c.status == "active") = true → ∀ o ∈ select c, hasId db o.id = true) :
    runStates select configs db = ([], db) := by
  induction configs with
  | nil => rfl
  | cons c rest ih =>
    by_cases hc : (c.status == "active") = true
    · have hp : processList db (select c) = ([], db) :=
        processList_stable _ _ (h c (List.mem_cons_self c rest) hc)
      simp only [runStates, hc, if_true, hp]
      rw [ih (fun c' hc' => h c' (List.mem_cons_of_mem _ hc'))]
      rfl
    · simp only [runStates, hc, Bool.false_eq_true, if_false]
      exact ih (fun c' hc' => h c' (List.mem_cons_of_mem _ hc'))

/-- C2: running `check_all_states` a second time over the same sources with
the same strategy outcomes (same upstream content, same process, same date
bucket) returns zero new opportunities and leaves every stored row — hence
every stored title, url, amount and deadline — exactly as the first run
left it. -/
theorem c2_second_run_noop (clients : Clients) (S : Strategies) (configs : List Config)
    (db : List StoredOpp) :
    (check_all_states clients S configs (check_all_states clients S configs db).2).1 = [] ∧
    (check_all_states clients S configs (check_all_states clients S configs db).2).2 =
      (check_all_states clients S configs db).2 := by
  have hstable :
      runStates (select_opportunities clients S) configs
        (runStates (select_opportunities clients S) configs db).2 =
      ([], (runStates (select_opportunities clients S) configs db).2) :=
    runStates_stable _ _ _
      (fun c hc ha o ho => runStates_mem (select_opportunities clients S) configs c hc ha o ho db)
  unfold check_all_states
  rw [hstable]
  exact ⟨rfl, rfl⟩

/-- C10: `check_all_states` skips any source whose status is
`needs_verification` entirely — the run's result is the same as if the
source were absent, for every configuration of the AI clients and every
strategy environment (so no strategy is attempted and zero opportunities
are contributed for it). -/
theorem c10_needs_verification_skipped (clients : Clients) (S : Strategies)
    (c : Config) (rest : List Config) (db : List StoredOpp)
    (h : c.status = "needs_verification") :
    check_all_states clients S (c :: rest) db = check_all_states clients S rest db := by
  have hc : (c.status == "active") = false := by
    rw [h]
    rfl
  unfold check_all_states
  simp only [runStates, hc, Bool.false_eq_true, if_false]

/-- C10 witness: the New York source has status `needs_verification` and is
skipped by a run over it alone, for AI clients both configured. -/
theorem c10_needs_verification_witness :
    cfgNY.status = "needs_verification" ∧
    check_all_states ⟨true, true⟩ stratAIOnly [cfgNY] [] =
      check_all_states ⟨true, true⟩ stratAIOnly [] [] :=
  ⟨rfl, c10_needs_verification_skipped ⟨true, true⟩ stratAIOnly cfgNY [] [] rfl⟩

/-- Cross-validation of the embedded `urljoin` against CPython's
`urllib.parse.urljoin` on the resolution shapes the extractors feed it
(fragment-only, absolute path, relative path, dot segments, foreign
schemes, protocol-relative, query-only). -/
theorem urljoin_matches_cpython :
    urljoin "https://tea.texas.gov/finance-and-grants/grants" "#main" = "https://tea.texas.gov/finance-and-grants/grants#main" ∧
    urljoin "https://tea.texas.gov/finance-and-grants/grants" "/funding" = "https://tea.texas.gov/funding" ∧
    urljoin "https://tea.texas.gov/finance-and-grants/grants" "funding/x" = "https://tea.texas.gov/finance-and-grants/funding/x" ∧
    urljoin "https://tea.texas.gov/finance-and-grants/grants" "../up" = "https://tea.texas.gov/up" ∧
    urljoin "https://tea.texas.gov/finance-and-grants/grants" "a/./b" = "https://tea.texas.gov/finance-and-grants/a/b" ∧
    urljoin "https://tea.texas.gov/finance-and-grants/grants" ".." = "https://tea.texas.gov/" ∧
    urljoin "https://tea.texas.gov/finance-and-grants/grants" "javascript:void(0)" = "javascript:void(0)" ∧
    urljoin "https://tea.texas.gov/finance-and-grants/grants" "mailto:x@y.z" = "mailto:x@y.z" ∧
    urljoin "https://tea.texas.gov/finance-and-grants/grants" "//cdn.example.com/x" = "https://cdn.example.com/x" ∧
    urljoin "https://tea.texas.gov/finance-and-grants/grants" "?q=1" = "https://tea.texas.gov/finance-and-grants/grants?q=1" := by
  refine ⟨?_, ?_, ?_, ?_, ?_, ?_, ?_, ?_, ?_, ?_⟩ <;> decide
